import Mathlib

/-!
# Verification of the `core-js-101` date-task functions

A shallow embedding of `src/04-date-tasks.js` (five standalone date/time
utilities) together with proofs relating the embedded code to its
natural-language specification.

Conventions used throughout:
* a JavaScript date value is observed either through its calendar
  accessors (`JSDate`, a record of local broken-down components) or, where
  the code only does arithmetic on dates, as its epoch-millisecond value
  (`Int`);
* JavaScript `%` on integers is the truncated remainder `Int.tmod`, and
  `Math.trunc (a / b)` on an integer quotient is `Int.tdiv`;
* JavaScript numbers produced by the embedded code are exact rationals
  (`ℚ`) for the degree pipeline of the clock-angle function, and reals
  (`ℝ`) once `Math.PI` enters.
-/

set_option autoImplicit false

namespace CoreJs101

/-! ## Date model -/

/-- A JavaScript date value as seen through its local-time calendar
accessors (`getFullYear`, `getMonth`, `getDate`, `getHours`,
`getMinutes`, `getSeconds`, `getMilliseconds`). -/
structure JSDate where
  year : Int
  month : Int
  day : Int
  hours : Int
  minutes : Int
  seconds : Int
  ms : Int
deriving DecidableEq

/-- `date.getFullYear()`. -/
def getFullYear (d : JSDate) : Int := d.year

/-- `date.getHours()`. -/
def getHours (d : JSDate) : Int := d.hours

/-- `date.getMinutes()`. -/
def getMinutes (d : JSDate) : Int := d.minutes

/-- A date value with the given year/month/day and zero time-of-day,
mirroring the `Date(y, m, d)` constructions in the source examples. -/
def mkDate (y m d : Int) : JSDate := ⟨y, m, d, 0, 0, 0, 0⟩

/-! ## `isLeapYear` (src/04-date-tasks.js, lines 56–62) -/

/-- `isLeapYear` from the source:
```js
function isLeapYear(date) {
  if (date.getFullYear() % 4 > 0) return false;
  if (date.getFullYear() % 100 === 0) {
    if (date.getFullYear() % 400 === 0) return true;
    return false;
  } return true;
}
```
JavaScript `%` is the truncated remainder, `Int.tmod`. -/
def isLeapYear (d : JSDate) : Bool :=
  if (getFullYear d).tmod 4 > 0 then false
  else if (getFullYear d).tmod 100 = 0 then
    (if (getFullYear d).tmod 400 = 0 then true else false)
  else true

/-- The Gregorian leap-year formula exactly as the specification writes it,
`Y % 4 == 0 && (Y % 100 != 0 || Y % 400 == 0)`, with `%` again the
JavaScript truncated remainder. -/
def gregorianLeapRule (y : Int) : Prop :=
  y.tmod 4 = 0 ∧ (y.tmod 100 ≠ 0 ∨ y.tmod 400 = 0)

instance (y : Int) : Decidable (gregorianLeapRule y) := by
  unfold gregorianLeapRule; infer_instance

/-! ## `timeSpanToString` (src/04-date-tasks.js, lines 80–87)

For this function the source only uses dates through subtraction
(`endDate - startDate`), which in JavaScript coerces both dates to their
epoch-millisecond values; the two date arguments are therefore embedded
as epoch-millisecond integers. -/

/-- `Number.prototype.toString()` (radix 10) for an integer-valued
JavaScript number: decimal digits, with a leading minus sign when
negative.  `Nat.toDigits 10 n` is the decimal digit-char list of `n`. -/
def jsNumToChars : Int → List Char
  | .ofNat n => Nat.toDigits 10 n
  | .negSucc n => '-' :: Nat.toDigits 10 (n + 1)

/-- `String.prototype.padStart(w, 0)` as called in the source: the pad
argument `0` is coerced to the string `"0"`, so the call left-pads with
`'0'` up to width `w` (and returns the string unchanged when it is
already at least that long). -/
def jsPadStart (s : List Char) (w : Nat) : List Char :=
  if s.length < w then List.replicate (w - s.length) '0' ++ s else s

namespace TimeSpan

/-- `const millisecondQuantity = endDate - startDate;` -/
def millisecondQuantity (startDate endDate : Int) : Int := endDate - startDate

/-- `const hour = Math.trunc(millisecondQuantity / 3600000);` -/
def hour (q : Int) : Int := q.tdiv 3600000

/-- `const minutes = Math.trunc((millisecondQuantity % 3600000) / 60000);` -/
def minutes (q : Int) : Int := (q.tmod 3600000).tdiv 60000

/-- `const seconds = Math.trunc(((millisecondQuantity % 3600000) % 60000) / 1000);` -/
def seconds (q : Int) : Int := ((q.tmod 3600000).tmod 60000).tdiv 1000

/-- `const millisecond = millisecondQuantity - (3600000 * hour) - (minutes * 60000) - (seconds * 1000);` -/
def millisecond (q : Int) : Int :=
  q - 3600000 * hour q - minutes q * 60000 - seconds q * 1000

end TimeSpan

/-- `timeSpanToString` from the source: the template literal
``` `${hour.toString().padStart(2, 0)}:${minutes...}:${seconds...}.${millisecond.toString().padStart(3, 0)}` ```. -/
def timeSpanToString (startDate endDate : Int) : String :=
  let q := TimeSpan.millisecondQuantity startDate endDate
  String.mk
    (jsPadStart (jsNumToChars (TimeSpan.hour q)) 2 ++
      ':' :: jsPadStart (jsNumToChars (TimeSpan.minutes q)) 2 ++
      ':' :: jsPadStart (jsNumToChars (TimeSpan.seconds q)) 2 ++
      '.' :: jsPadStart (jsNumToChars (TimeSpan.millisecond q)) 3)

/-- The hours field of the formatted time span, as printed. -/
def hourField (q : Int) : List Char := jsPadStart (jsNumToChars (TimeSpan.hour q)) 2

/-- The minutes field of the formatted time span, as printed. -/
def minutesField (q : Int) : List Char := jsPadStart (jsNumToChars (TimeSpan.minutes q)) 2

/-- The seconds field of the formatted time span, as printed. -/
def secondsField (q : Int) : List Char := jsPadStart (jsNumToChars (TimeSpan.seconds q)) 2

/-- The milliseconds field of the formatted time span, as printed. -/
def msField (q : Int) : List Char := jsPadStart (jsNumToChars (TimeSpan.millisecond q)) 3

/-! ## `angleBetweenClockHands` (src/04-date-tasks.js, lines 105–154) -/

/-- The first hour adjustment of the source:
`if (hours - 3 < 0) hours = hours - 3 + 24; else hours -= 3;`. -/
def hoursShift (hours : Int) : Int :=
  if hours - 3 < 0 then hours - 3 + 24 else hours - 3

/-- The `if (hours > 12) switch (hours) {...}` remapping of the source:
cases `13 ↦ 1`, `14 ↦ 2`, …, `23 ↦ 11`, with `default` mapping to `0`;
an hour not exceeding 12 is left unchanged. -/
def hoursRemap (hours : Int) : Int :=
  if hours > 12 then
    if hours = 13 then 1
    else if hours = 14 then 2
    else if hours = 15 then 3
    else if hours = 16 then 4
    else if hours = 17 then 5
    else if hours = 18 then 6
    else if hours = 19 then 7
    else if hours = 20 then 8
    else if hours = 21 then 9
    else if hours = 22 then 10
    else if hours = 23 then 11
    else 0
  else hours

/-- `let ugol = Math.abs(0.5 * (60 * hours + minutes) - 6 * minutes);`
with `hours` the preprocessed hour and `minutes` = `getMinutes()`.
The arithmetic is exact in `ℚ`. -/
def ugol (d : JSDate) : ℚ :=
  |0.5 * (60 * ((hoursRemap (hoursShift (getHours d)) : ℚ)) + (getMinutes d : ℚ))
    - 6 * (getMinutes d : ℚ)|

/-- `if (ugol > 180) ugol /= 3;` -/
def ugolAdjusted (d : JSDate) : ℚ :=
  if ugol d > 180 then ugol d / 3 else ugol d

/-- `return ((Math.PI * ugol) / 180);` -/
noncomputable def angleBetweenClockHands (d : JSDate) : ℝ :=
  Real.pi * ((ugolAdjusted d : ℚ) : ℝ) / 180

/-- The hour-preprocessing pipeline exactly as the specification describes
it: subtract a fixed 3 hours from the local hour, wrap a negative result
into 0–23 by adding 24, and when the result exceeds 12 remap it by the
table `13→1, …, 23→11` (any other value in that branch to 0). -/
def specHourPreprocess (hours : Int) : Int :=
  let shifted := hours - 3
  let wrapped := if shifted < 0 then shifted + 24 else shifted
  if wrapped > 12 then
    (if 13 ≤ wrapped ∧ wrapped ≤ 23 then wrapped - 12 else 0)
  else wrapped

/-- The raw clock angle in degrees as the specification writes it:
`|0.5 × (60 × hour12 + minute) − 6 × minute|`. -/
def specRawAngle (hour12 minute : Int) : ℚ :=
  |0.5 * (60 * (hour12 : ℚ) + (minute : ℚ)) - 6 * (minute : ℚ)|

/-- Modelled from the spec: the host accessor `getHours()` is not part of
src/ (it is provided by the JavaScript runtime).  Per the specification,
the documented examples hold under "the correct offset convention" — the
environment whose fixed 3-hour shift the source compensates for, i.e.
local time = UTC + 3 (no DST).  For an on-the-hour UTC-constructed date,
the local hour is then the UTC hour plus 3, reduced modulo 24. -/
def localHourFromUTC (utcHours : Int) : Int := (utcHours + 3) % 24

/-- The local-time date value observed for `Date.UTC(y, mo, day, utcH, 0)`
in the UTC+3 environment.  Only the hour and minute components are read
by `angleBetweenClockHands`, so the remaining components are irrelevant
and kept as constructed. -/
def utcExample (y mo day utcH : Int) : JSDate :=
  ⟨y, mo, day, localHourFromUTC utcH, 0, 0, 0⟩

/-! ## The two date-string parsers (src/04-date-tasks.js, lines 22–24 and 37–39)

Both functions are one-line wrappers around the host `Date.parse`, which
is not part of src/.  `Date.parse` is therefore modelled from the spec:
it recognizes ISO-8601 extended strings and RFC-2822 strings, returns the
epoch-millisecond value of the instant the string denotes (honoring an
explicit offset or the `Z`/`GMT` designator), and returns the NaN
sentinel — modelled as `none` — on every string it does not recognize,
never raising an error (the model is a total function). -/

/-- The calendar components a date-time string denotes. -/
structure DateComponents where
  year : Nat
  month : Nat
  day : Nat
  hourv : Nat
  minutev : Nat
  secondv : Nat
deriving DecidableEq

/-- An explicit time-zone designator: UTC (`Z` / `GMT`) or a signed
hours/minutes offset. -/
inductive ZoneSpec where
  | zulu : ZoneSpec
  | offset (negative : Bool) (offH offM : Nat) : ZoneSpec
deriving DecidableEq

/-- Range conditions on parsed components (the permissive host-parser
ranges: four-digit year, month 1–12, day 1–31, hour ≤ 23, minute and
second ≤ 59). -/
def ComponentsInRange (c : DateComponents) : Prop :=
  1 ≤ c.year ∧ c.year ≤ 9999 ∧ 1 ≤ c.month ∧ c.month ≤ 12 ∧ 1 ≤ c.day ∧ c.day ≤ 31 ∧
    c.hourv ≤ 23 ∧ c.minutev ≤ 59 ∧ c.secondv ≤ 59

instance (c : DateComponents) : Decidable (ComponentsInRange c) := by
  unfold ComponentsInRange; infer_instance

/-- Bounds for an explicit zone offset. -/
def ZoneInRange : ZoneSpec → Prop
  | .zulu => True
  | .offset _ h m => h ≤ 23 ∧ m ≤ 59

instance (z : ZoneSpec) : Decidable (ZoneInRange z) := by
  cases z <;> (unfold ZoneInRange; infer_instance)

/-- Days from 1970-01-01 to the civil date `y-m-d` (proleptic Gregorian),
the standard era-based conversion used by calendar libraries. -/
def daysFromCivil (y m d : Int) : Int :=
  let y2 := if m ≤ 2 then y - 1 else y
  let era := y2 / 400
  let yoe := y2 - era * 400
  let mp := (m + 9) % 12
  let doy := (153 * mp + 2) / 5 + d - 1
  let doe := yoe * 365 + yoe / 4 - yoe / 100 + doy
  era * 146097 + doe - 719468

/-- Epoch milliseconds of the calendar instant `c` read as UTC. -/
def utcEpochMs (c : DateComponents) : Int :=
  daysFromCivil c.year c.month c.day * 86400000 +
    c.hourv * 3600000 + c.minutev * 60000 + c.secondv * 1000

/-- The millisecond value of a zone designator. -/
def zoneOffsetMs : ZoneSpec → Int
  | .zulu => 0
  | .offset neg h m => (if neg then -1 else 1) * (h * 3600000 + m * 60000)

/-- The epoch-millisecond instant denoted by components `c` carrying zone
designator `z`: the wall-clock reading minus the zone offset. -/
def denotedEpochMs (c : DateComponents) (z : ZoneSpec) : Int :=
  utcEpochMs c - zoneOffsetMs z

/-- Fixed-width decimal rendering: the `w` low decimal digits of `n`,
zero-padded to exactly width `w`. -/
def padNum : Nat → Nat → List Char
  | 0, _ => []
  | w + 1, n => padNum w (n / 10) ++ [Nat.digitChar (n % 10)]

/-- Numeric value of a decimal digit character. -/
def digitVal (c : Char) : Nat := c.toNat - 48

/-- Value of a two-digit decimal field. -/
def read2 (a b : Char) : Nat := 10 * digitVal a + digitVal b

/-- Value of a four-digit decimal field. -/
def read4 (a b c d : Char) : Nat :=
  1000 * digitVal a + 100 * digitVal b + 10 * digitVal c + digitVal d

/-- The zone suffix of an ISO-8601 extended string: `Z` or `±hh:mm`. -/
def renderZoneIso : ZoneSpec → List Char
  | .zulu => ['Z']
  | .offset neg h m => (if neg then '-' else '+') :: padNum 2 h ++ ':' :: padNum 2 m

/-- An ISO-8601 extended date-time string `YYYY-MM-DDTHH:MM:SS` followed
by a zone designator, as a character list. -/
def renderIso (c : DateComponents) (z : ZoneSpec) : List Char :=
  padNum 4 c.year ++ '-' :: padNum 2 c.month ++ '-' :: padNum 2 c.day ++
    'T' :: padNum 2 c.hourv ++ ':' :: padNum 2 c.minutev ++ ':' :: padNum 2 c.secondv ++
    renderZoneIso z

/-- Parses the ISO-8601 zone suffix. -/
def parseZoneIso : List Char → Option Int
  | ['Z'] => some 0
  | ['+', h1, h2, ':', m1, m2] =>
    if h1.isDigit = true ∧ h2.isDigit = true ∧ m1.isDigit = true ∧ m2.isDigit = true ∧
        read2 h1 h2 ≤ 23 ∧ read2 m1 m2 ≤ 59 then
      some (read2 h1 h2 * 3600000 + read2 m1 m2 * 60000)
    else none
  | ['-', h1, h2, ':', m1, m2] =>
    if h1.isDigit = true ∧ h2.isDigit = true ∧ m1.isDigit = true ∧ m2.isDigit = true ∧
        read2 h1 h2 ≤ 23 ∧ read2 m1 m2 ≤ 59 then
      some (-(read2 h1 h2 * 3600000 + read2 m1 m2 * 60000))
    else none
  | _ => none

/-- Modelled from the spec: the ISO-8601 extended-format branch of the
host `Date.parse` — recognize `YYYY-MM-DDTHH:MM:SS` plus `Z` or `±hh:mm`,
and return the denoted epoch-millisecond instant; anything else is
rejected. -/
def parseIsoChars : List Char → Option Int
  | y1 :: y2 :: y3 :: y4 :: '-' :: o1 :: o2 :: '-' :: d1 :: d2 :: 'T' ::
      h1 :: h2 :: ':' :: i1 :: i2 :: ':' :: s1 :: s2 :: rest =>
    if y1.isDigit = true ∧ y2.isDigit = true ∧ y3.isDigit = true ∧ y4.isDigit = true ∧
        o1.isDigit = true ∧ o2.isDigit = true ∧ d1.isDigit = true ∧ d2.isDigit = true ∧
        h1.isDigit = true ∧ h2.isDigit = true ∧ i1.isDigit = true ∧ i2.isDigit = true ∧
        s1.isDigit = true ∧ s2.isDigit = true then
      if ComponentsInRange ⟨read4 y1 y2 y3 y4, read2 o1 o2, read2 d1 d2,
          read2 h1 h2, read2 i1 i2, read2 s1 s2⟩ then
        match parseZoneIso rest with
        | some off => some (utcEpochMs ⟨read4 y1 y2 y3 y4, read2 o1 o2, read2 d1 d2,
            read2 h1 h2, read2 i1 i2, read2 s1 s2⟩ - off)
        | none => none
      else none
    else none
  | _ => none

/-- RFC-2822 three-letter day names, indexed 0–6. -/
def dayChars : Nat → List Char
  | 0 => ['S', 'u', 'n']
  | 1 => ['M', 'o', 'n']
  | 2 => ['T', 'u', 'e']
  | 3 => ['W', 'e', 'd']
  | 4 => ['T', 'h', 'u']
  | 5 => ['F', 'r', 'i']
  | 6 => ['S', 'a', 't']
  | _ => []

/-- Whether three characters form one of the seven RFC-2822 day names. -/
def DayNameOk (a b c : Char) : Prop :=
  (a = 'S' ∧ b = 'u' ∧ c = 'n') ∨ (a = 'M' ∧ b = 'o' ∧ c = 'n') ∨
    (a = 'T' ∧ b = 'u' ∧ c = 'e') ∨ (a = 'W' ∧ b = 'e' ∧ c = 'd') ∨
    (a = 'T' ∧ b = 'h' ∧ c = 'u') ∨ (a = 'F' ∧ b = 'r' ∧ c = 'i') ∨
    (a = 'S' ∧ b = 'a' ∧ c = 't')

instance (a b c : Char) : Decidable (DayNameOk a b c) := by
  unfold DayNameOk; infer_instance

/-- RFC-2822 three-letter month names, indexed 1–12. -/
def monthChars : Nat → List Char
  | 1 => ['J', 'a', 'n']
  | 2 => ['F', 'e', 'b']
  | 3 => ['M', 'a', 'r']
  | 4 => ['A', 'p', 'r']
  | 5 => ['M', 'a', 'y']
  | 6 => ['J', 'u', 'n']
  | 7 => ['J', 'u', 'l']
  | 8 => ['A', 'u', 'g']
  | 9 => ['S', 'e', 'p']
  | 10 => ['O', 'c', 't']
  | 11 => ['N', 'o', 'v']
  | 12 => ['D', 'e', 'c']
  | _ => []

/-- The month number named by three characters, if any. -/
def monthFromName (a b c : Char) : Option Nat :=
  if a = 'J' ∧ b = 'a' ∧ c = 'n' then some 1
  else if a = 'F' ∧ b = 'e' ∧ c = 'b' then some 2
  else if a = 'M' ∧ b = 'a' ∧ c = 'r' then some 3
  else if a = 'A' ∧ b = 'p' ∧ c = 'r' then some 4
  else if a = 'M' ∧ b = 'a' ∧ c = 'y' then some 5
  else if a = 'J' ∧ b = 'u' ∧ c = 'n' then some 6
  else if a = 'J' ∧ b = 'u' ∧ c = 'l' then some 7
  else if a = 'A' ∧ b = 'u' ∧ c = 'g' then some 8
  else if a = 'S' ∧ b = 'e' ∧ c = 'p' then some 9
  else if a = 'O' ∧ b = 'c' ∧ c = 't' then some 10
  else if a = 'N' ∧ b = 'o' ∧ c = 'v' then some 11
  else if a = 'D' ∧ b = 'e' ∧ c = 'c' then some 12
  else none

/-- The zone suffix of an RFC-2822 string: `" GMT"` or `" ±hhmm"`. -/
def renderZoneRfc : ZoneSpec → List Char
  | .zulu => [' ', 'G', 'M', 'T']
  | .offset neg h m => ' ' :: (if neg then '-' else '+') :: padNum 2 h ++ padNum 2 m

/-- An RFC-2822 date-time string
`Ddd, DD Mmm YYYY HH:MM:SS` followed by a zone designator, as a
character list (`w` indexes the leading day name). -/
def renderRfc (w : Nat) (c : DateComponents) (z : ZoneSpec) : List Char :=
  dayChars w ++ ',' :: ' ' :: padNum 2 c.day ++ ' ' :: monthChars c.month ++
    ' ' :: padNum 4 c.year ++ ' ' :: padNum 2 c.hourv ++ ':' :: padNum 2 c.minutev ++
    ':' :: padNum 2 c.secondv ++ renderZoneRfc z

/-- Parses the RFC-2822 zone suffix. -/
def parseZoneRfc : List Char → Option Int
  | [' ', 'G', 'M', 'T'] => some 0
  | [' ', '+', h1, h2, m1, m2] =>
    if h1.isDigit = true ∧ h2.isDigit = true ∧ m1.isDigit = true ∧ m2.isDigit = true ∧
        read2 h1 h2 ≤ 23 ∧ read2 m1 m2 ≤ 59 then
      some (read2 h1 h2 * 3600000 + read2 m1 m2 * 60000)
    else none
  | [' ', '-', h1, h2, m1, m2] =>
    if h1.isDigit = true ∧ h2.isDigit = true ∧ m1.isDigit = true ∧ m2.isDigit = true ∧
        read2 h1 h2 ≤ 23 ∧ read2 m1 m2 ≤ 59 then
      some (-(read2 h1 h2 * 3600000 + read2 m1 m2 * 60000))
    else none
  | _ => none

/-- Modelled from the spec: the RFC-2822 branch of the host `Date.parse`
— recognize `Ddd, DD Mmm YYYY HH:MM:SS` plus ` GMT` or ` ±hhmm`, and
return the denoted epoch-millisecond instant; anything else is
rejected. -/
def parseRfcChars : List Char → Option Int
  | n1 :: n2 :: n3 :: ',' :: ' ' :: d1 :: d2 :: ' ' :: m1 :: m2 :: m3 :: ' ' ::
      y1 :: y2 :: y3 :: y4 :: ' ' :: h1 :: h2 :: ':' :: i1 :: i2 :: ':' :: s1 :: s2 :: rest =>
    if DayNameOk n1 n2 n3 ∧ d1.isDigit = true ∧ d2.isDigit = true ∧
        y1.isDigit = true ∧ y2.isDigit = true ∧ y3.isDigit = true ∧ y4.isDigit = true ∧
        h1.isDigit = true ∧ h2.isDigit = true ∧ i1.isDigit = true ∧ i2.isDigit = true ∧
        s1.isDigit = true ∧ s2.isDigit = true then
      match monthFromName m1 m2 m3 with
      | some mo =>
        if ComponentsInRange ⟨read4 y1 y2 y3 y4, mo, read2 d1 d2,
            read2 h1 h2, read2 i1 i2, read2 s1 s2⟩ then
          match parseZoneRfc rest with
          | some off => some (utcEpochMs ⟨read4 y1 y2 y3 y4, mo, read2 d1 d2,
              read2 h1 h2, read2 i1 i2, read2 s1 s2⟩ - off)
          | none => none
        else none
      | none => none
    else none
  | _ => none

/-- Modelled from the spec: the host `Date.parse` — try the ISO-8601
branch first (as the ECMAScript parser does), then the RFC-2822 branch;
a string recognized by neither yields the NaN sentinel, modelled as
`none`.  The function is total: no input raises an error. -/
def jsDateParse (s : String) : Option Int :=
  match parseIsoChars s.data with
  | some v => some v
  | none => parseRfcChars s.data

/-- `function parseDataFromRfc2822(value) { return Date.parse(value); }` -/
def parseDataFromRfc2822 (value : String) : Option Int := jsDateParse value

/-- `function parseDataFromIso8601(value) { return Date.parse(value); }` -/
def parseDataFromIso8601 (value : String) : Option Int := jsDateParse value

/-! ## Helper lemmas -/

theorem tsHour_eq {q : Int} (hq : 0 ≤ q) : TimeSpan.hour q = q / 3600000 :=
  Int.tdiv_eq_ediv hq (by norm_num)

theorem tsMinutes_eq {q : Int} (hq : 0 ≤ q) : TimeSpan.minutes q = q % 3600000 / 60000 := by
  unfold TimeSpan.minutes
  rw [Int.tmod_eq_emod hq (by norm_num),
    Int.tdiv_eq_ediv (Int.emod_nonneg q (by norm_num)) (by norm_num)]

theorem tsSeconds_eq {q : Int} (hq : 0 ≤ q) : TimeSpan.seconds q = q % 3600000 % 60000 / 1000 := by
  unfold TimeSpan.seconds
  rw [Int.tmod_eq_emod hq (by norm_num),
    Int.tmod_eq_emod (Int.emod_nonneg q (by norm_num)) (by norm_num),
    Int.tdiv_eq_ediv (Int.emod_nonneg _ (by norm_num)) (by norm_num)]

theorem tsMillisecond_eq {q : Int} (hq : 0 ≤ q) :
    TimeSpan.millisecond q =
      q - 3600000 * (q / 3600000) - q % 3600000 / 60000 * 60000 -
        q % 3600000 % 60000 / 1000 * 1000 := by
  unfold TimeSpan.millisecond
  rw [tsHour_eq hq, tsMinutes_eq hq, tsSeconds_eq hq]

theorem jsNumToChars_nonneg {i : Int} (hi : 0 ≤ i) :
    jsNumToChars i = Nat.toDigits 10 i.toNat := by
  cases i with
  | ofNat n => rfl
  | negSucc n => exact absurd hi (by simp)

theorem jsPadStart_length (s : List Char) (w : Nat) :
    (jsPadStart s w).length = max w s.length := by
  unfold jsPadStart
  split <;> simp <;> omega

set_option maxRecDepth 4000 in
theorem toDigits_length_le_two : ∀ n < 100, (Nat.toDigits 10 n).length ≤ 2 := by decide

set_option maxRecDepth 4000 in
theorem toDigits_length_le_three : ∀ n < 1000, (Nat.toDigits 10 n).length ≤ 3 := by decide

theorem toDigitsCore_length_mono (b : Nat) :
    ∀ (f n : Nat) (acc : List Char), acc.length ≤ (Nat.toDigitsCore b f n acc).length := by
  intro f
  induction f with
  | zero => intro n acc; simp [Nat.toDigitsCore]
  | succ f ih =>
    intro n acc
    simp only [Nat.toDigitsCore]
    split
    · simp
    · exact le_trans (by simp) (ih (n / b) (Nat.digitChar (n % b) :: acc))

theorem toDigitsCore_length_succ (b f n : Nat) (acc : List Char) :
    acc.length + 1 ≤ (Nat.toDigitsCore b (f + 1) n acc).length := by
  simp only [Nat.toDigitsCore]
  split
  · simp
  · exact le_trans (by simp) (toDigitsCore_length_mono b f (n / b) (Nat.digitChar (n % b) :: acc))

theorem toDigitsCore_step (b f n : Nat) (acc : List Char) (h : ¬ n / b = 0) :
    Nat.toDigitsCore b (f + 1) n acc =
      Nat.toDigitsCore b f (n / b) (Nat.digitChar (n % b) :: acc) := by
  conv_lhs => rw [Nat.toDigitsCore]
  simp only [h, if_false]

theorem toDigits_length_ge_three {n : Nat} (h : 100 ≤ n) : 3 ≤ (Nat.toDigits 10 n).length := by
  obtain ⟨m, rfl⟩ : ∃ m, n = m + 100 := ⟨n - 100, by omega⟩
  unfold Nat.toDigits
  rw [toDigitsCore_step 10 (m + 100) (m + 100) [] (by omega)]
  rw [show m + 100 = m + 99 + 1 by omega]
  rw [toDigitsCore_step 10 (m + 99) ((m + 99 + 1) / 10) _ (by omega)]
  rw [show m + 99 = m + 98 + 1 by omega]
  refine le_trans ?_ (toDigitsCore_length_succ 10 (m + 98) _ _)
  simp

/-- The `switch`-based remapping of `hoursRemap` in closed form: hours in
13–23 lose 12, any other hour above 12 collapses to 0, hours not above 12
pass through. -/
theorem hoursRemap_eq (w : Int) :
    hoursRemap w = if w > 12 then (if 13 ≤ w ∧ w ≤ 23 then w - 12 else 0) else w := by
  unfold hoursRemap
  by_cases h12 : w > 12
  · rw [if_pos h12, if_pos h12]
    by_cases hle : w ≤ 23
    · rw [if_pos (⟨by omega, hle⟩ : 13 ≤ w ∧ w ≤ 23)]
      interval_cases w <;> decide
    · rw [if_neg (by omega : ¬(13 ≤ w ∧ w ≤ 23)),
        if_neg (by omega : ¬ w = 13), if_neg (by omega : ¬ w = 14),
        if_neg (by omega : ¬ w = 15), if_neg (by omega : ¬ w = 16),
        if_neg (by omega : ¬ w = 17), if_neg (by omega : ¬ w = 18),
        if_neg (by omega : ¬ w = 19), if_neg (by omega : ¬ w = 20),
        if_neg (by omega : ¬ w = 21), if_neg (by omega : ¬ w = 22),
        if_neg (by omega : ¬ w = 23)]
  · rw [if_neg h12, if_neg h12]

/-! ## Claim theorems -/

/-- C1 (amended): for every date value whose year component is
non-negative, `isLeapYear` returns `true` iff the year satisfies the
Gregorian rule `Y % 4 == 0 && (Y % 100 != 0 || Y % 400 == 0)`; the
documented concrete cases 1900 → false, 2000 → true, 2001 → false,
2012 → true, 2015 → false all hold.  (The unamended claim quantifies over
every date value; it fails at negative years, where the JavaScript
truncated remainder makes the source return `true` for years not
divisible by 4 — see `isLeapYear_negative_year_cex`.) -/
theorem isLeapYear_gregorian_rule :
    (∀ d : JSDate, 0 ≤ d.year → (isLeapYear d = true ↔ gregorianLeapRule d.year)) ∧
      isLeapYear (mkDate 1900 1 1) = false ∧ isLeapYear (mkDate 2000 1 1) = true ∧
      isLeapYear (mkDate 2001 1 1) = false ∧ isLeapYear (mkDate 2012 1 1) = true ∧
      isLeapYear (mkDate 2015 1 1) = false := by
  refine ⟨?_, by decide, by decide, by decide, by decide, by decide⟩
  intro d hy
  unfold isLeapYear gregorianLeapRule getFullYear
  rw [Int.tmod_eq_emod hy (by norm_num), Int.tmod_eq_emod hy (by norm_num),
    Int.tmod_eq_emod hy (by norm_num)]
  split_ifs with h1 h2 h3 <;> simp <;> omega

/-- C1 witness: the amended equivalence applied at the concrete year
2024. -/
theorem isLeapYear_gregorian_rule_witness :
    0 ≤ (mkDate 2024 1 1).year ∧
      (isLeapYear (mkDate 2024 1 1) = true ↔ gregorianLeapRule (mkDate 2024 1 1).year) :=
  ⟨by decide, isLeapYear_gregorian_rule.1 (mkDate 2024 1 1) (by decide)⟩

/-- C1 counterexample: at the date value of year −1 the source returns
`true` while the specification formula (with the JavaScript `%`) is
false, so the claim as stated over every date value fails. -/
theorem isLeapYear_negative_year_cex :
    isLeapYear (mkDate (-1) 1 1) = true ∧
      ¬ gregorianLeapRule (getFullYear (mkDate (-1) 1 1)) := by
  decide

/-- C9: `isLeapYear` is a function of the year component alone: two date
values with equal year components get equal results, whatever their
month, day and time-of-day components. -/
theorem isLeapYear_year_only (d1 d2 : JSDate) (h : d1.year = d2.year) :
    isLeapYear d1 = isLeapYear d2 := by
  unfold isLeapYear getFullYear
  rw [h]

/-- C9 witness: two concrete dates of 2016 differing in every other
component. -/
theorem isLeapYear_year_only_witness :
    (⟨2016, 2, 5, 10, 30, 0, 0⟩ : JSDate).year = (⟨2016, 7, 1, 23, 59, 59, 999⟩ : JSDate).year ∧
      isLeapYear ⟨2016, 2, 5, 10, 30, 0, 0⟩ = isLeapYear ⟨2016, 7, 1, 23, 59, 59, 999⟩ :=
  ⟨rfl, isLeapYear_year_only _ _ rfl⟩

/-- C2: for every pair of date values with a non-negative millisecond
difference, the hour, minute, second and millisecond numbers printed by
`timeSpanToString` reconstruct the difference exactly via
`H*3600000 + M*60000 + S*1000 + ms`; the five documented differences
produce exactly the documented strings. -/
theorem timeSpanToString_reconstruction :
    (∀ startDate endDate : Int, 0 ≤ TimeSpan.millisecondQuantity startDate endDate →
      TimeSpan.hour (endDate - startDate) * 3600000 +
        TimeSpan.minutes (endDate - startDate) * 60000 +
        TimeSpan.seconds (endDate - startDate) * 1000 +
        TimeSpan.millisecond (endDate - startDate) = endDate - startDate) ∧
      timeSpanToString 0 3600000 = "01:00:00.000" ∧
      timeSpanToString 0 1800000 = "00:30:00.000" ∧
      timeSpanToString 0 20000 = "00:00:20.000" ∧
      timeSpanToString 0 250 = "00:00:00.250" ∧
      timeSpanToString 0 19210453 = "05:20:10.453" := by
  refine ⟨?_, by decide, by decide, by decide, by decide, by decide⟩
  intro startDate endDate h
  unfold TimeSpan.millisecond
  ring

/-- C2 witness: the reconstruction identity applied at the documented
5h 20m 10s 453ms difference. -/
theorem timeSpanToString_reconstruction_witness :
    0 ≤ TimeSpan.millisecondQuantity 0 19210453 ∧
      TimeSpan.hour ((19210453 : Int) - 0) * 3600000 +
        TimeSpan.minutes ((19210453 : Int) - 0) * 60000 +
        TimeSpan.seconds ((19210453 : Int) - 0) * 1000 +
        TimeSpan.millisecond ((19210453 : Int) - 0) = (19210453 : Int) - 0 :=
  ⟨by decide, timeSpanToString_reconstruction.1 0 19210453 (by decide)⟩

/-- C6: for every pair of date values with a non-negative difference `q`,
the output of `timeSpanToString` is exactly the four printed fields in
`"HH:mm:ss.sss"` shape; the hours value is non-negative and obtained by
truncation toward zero (`hour*3600000 ≤ q < (hour+1)*3600000`, never
rounding up), minutes and seconds lie in 0–59 and print as exactly two
characters, milliseconds lie in 0–999 and print as exactly three
characters, the hours field is at least two characters, and a difference
of at least 100 hours (`360000000` ms) makes the hours field at least
three characters (unbounded above). -/
theorem timeSpanToString_format (startDate endDate : Int)
    (h : 0 ≤ TimeSpan.millisecondQuantity startDate endDate) :
    timeSpanToString startDate endDate =
      String.mk (hourField (endDate - startDate) ++
        ':' :: minutesField (endDate - startDate) ++
        ':' :: secondsField (endDate - startDate) ++
        '.' :: msField (endDate - startDate)) ∧
      0 ≤ TimeSpan.hour (endDate - startDate) ∧
      TimeSpan.hour (endDate - startDate) * 3600000 ≤ endDate - startDate ∧
      endDate - startDate < (TimeSpan.hour (endDate - startDate) + 1) * 3600000 ∧
      0 ≤ TimeSpan.minutes (endDate - startDate) ∧
      TimeSpan.minutes (endDate - startDate) ≤ 59 ∧
      0 ≤ TimeSpan.seconds (endDate - startDate) ∧
      TimeSpan.seconds (endDate - startDate) ≤ 59 ∧
      0 ≤ TimeSpan.millisecond (endDate - startDate) ∧
      TimeSpan.millisecond (endDate - startDate) ≤ 999 ∧
      2 ≤ (hourField (endDate - startDate)).length ∧
      (minutesField (endDate - startDate)).length = 2 ∧
      (secondsField (endDate - startDate)).length = 2 ∧
      (msField (endDate - startDate)).length = 3 ∧
      (360000000 ≤ endDate - startDate → 3 ≤ (hourField (endDate - startDate)).length) := by
  have hq : 0 ≤ endDate - startDate := h
  have e1 := tsHour_eq hq
  have e2 := tsMinutes_eq hq
  have e3 := tsSeconds_eq hq
  have e4 := tsMillisecond_eq hq
  have b1 : 0 ≤ TimeSpan.hour (endDate - startDate) := by omega
  have b2 : TimeSpan.hour (endDate - startDate) * 3600000 ≤ endDate - startDate := by omega
  have b3 : endDate - startDate < (TimeSpan.hour (endDate - startDate) + 1) * 3600000 := by
    have := Int.emod_emod_of_dvd (endDate - startDate) (by norm_num : (3600000 : Int) ∣ 3600000)
    omega
  have b4 : 0 ≤ TimeSpan.minutes (endDate - startDate) := by omega
  have b5 : TimeSpan.minutes (endDate - startDate) ≤ 59 := by omega
  have b6 : 0 ≤ TimeSpan.seconds (endDate - startDate) := by omega
  have b7 : TimeSpan.seconds (endDate - startDate) ≤ 59 := by omega
  have b8 : 0 ≤ TimeSpan.millisecond (endDate - startDate) := by omega
  have b9 : TimeSpan.millisecond (endDate - startDate) ≤ 999 := by omega
  have lm : (jsNumToChars (TimeSpan.minutes (endDate - startDate))).length ≤ 2 := by
    rw [jsNumToChars_nonneg b4]
    exact toDigits_length_le_two _ (by omega)
  have ls : (jsNumToChars (TimeSpan.seconds (endDate - startDate))).length ≤ 2 := by
    rw [jsNumToChars_nonneg b6]
    exact toDigits_length_le_two _ (by omega)
  have lms : (jsNumToChars (TimeSpan.millisecond (endDate - startDate))).length ≤ 3 := by
    rw [jsNumToChars_nonneg b8]
    exact toDigits_length_le_three _ (by omega)
  refine ⟨rfl, b1, b2, b3, b4, b5, b6, b7, b8, b9, ?_, ?_, ?_, ?_, ?_⟩
  · rw [hourField, jsPadStart_length]
    exact Nat.le_max_left 2 _
  · rw [minutesField, jsPadStart_length]
    exact Nat.max_eq_left lm
  · rw [secondsField, jsPadStart_length]
    exact Nat.max_eq_left ls
  · rw [msField, jsPadStart_length]
    exact Nat.max_eq_left lms
  · intro hbig
    rw [hourField, jsNumToChars_nonneg b1, jsPadStart_length]
    exact le_trans (toDigits_length_ge_three (by omega)) (Nat.le_max_right 2 _)

/-- C6 witness: the format description applied at a difference of 101
hours and 250 milliseconds. -/
theorem timeSpanToString_format_witness :
    0 ≤ TimeSpan.millisecondQuantity 0 363600250 ∧
      (timeSpanToString 0 363600250 =
        String.mk (hourField ((363600250 : Int) - 0) ++
          ':' :: minutesField ((363600250 : Int) - 0) ++
          ':' :: secondsField ((363600250 : Int) - 0) ++
          '.' :: msField ((363600250 : Int) - 0)) ∧
        0 ≤ TimeSpan.hour ((363600250 : Int) - 0) ∧
        TimeSpan.hour ((363600250 : Int) - 0) * 3600000 ≤ (363600250 : Int) - 0 ∧
        (363600250 : Int) - 0 < (TimeSpan.hour ((363600250 : Int) - 0) + 1) * 3600000 ∧
        0 ≤ TimeSpan.minutes ((363600250 : Int) - 0) ∧
        TimeSpan.minutes ((363600250 : Int) - 0) ≤ 59 ∧
        0 ≤ TimeSpan.seconds ((363600250 : Int) - 0) ∧
        TimeSpan.seconds ((363600250 : Int) - 0) ≤ 59 ∧
        0 ≤ TimeSpan.millisecond ((363600250 : Int) - 0) ∧
        TimeSpan.millisecond ((363600250 : Int) - 0) ≤ 999 ∧
        2 ≤ (hourField ((363600250 : Int) - 0)).length ∧
        (minutesField ((363600250 : Int) - 0)).length = 2 ∧
        (secondsField ((363600250 : Int) - 0)).length = 2 ∧
        (msField ((363600250 : Int) - 0)).length = 3 ∧
        (360000000 ≤ (363600250 : Int) - 0 → 3 ≤ (hourField ((363600250 : Int) - 0)).length)) :=
  ⟨by decide, timeSpanToString_format 0 363600250 (by decide)⟩

/-- C4: for every input date, the hour preprocessing performed by
`angleBetweenClockHands` — the fixed backward shift by 3, the wrap of a
negative result by adding 24, and the `switch` remapping — computes
exactly the specification's description `specHourPreprocess`: subtract
3, add 24 when negative, and when the result exceeds 12 remap by the
table `13→1, …, 23→11` (anything else in that branch to 0). -/
theorem angle_hour_preprocess_spec (d : JSDate) :
    hoursRemap (hoursShift (getHours d)) = specHourPreprocess (getHours d) := by
  rw [hoursRemap_eq]
  rfl

/-- C5: for every input date, the raw degree angle of
`angleBetweenClockHands` is exactly the specification formula
`|0.5 × (60 × hour12 + minute) − 6 × minute|` applied to the preprocessed
hour and the minute component; the returned value is the
divide-raw-by-3-when-above-180 adjustment of that formula, converted to
radians by the single final multiplication by `π/180`.  The concrete
conjuncts document the `> 180` branch: at local time 1:00 the raw angle
is 300° and the adjusted angle is 300/3 = 100°, not the reflex-correct
360 − 300 = 60°. -/
theorem ugol_int (d : JSDate) :
    ugol d = ((60 * hoursRemap (hoursShift (getHours d)) - 11 * getMinutes d).natAbs : ℚ) / 2 := by
  unfold ugol
  rw [show (0.5 : ℚ) * (60 * ((hoursRemap (hoursShift (getHours d)) : ℤ) : ℚ) +
        ((getMinutes d : ℤ) : ℚ)) - 6 * ((getMinutes d : ℤ) : ℚ) =
      (((60 * hoursRemap (hoursShift (getHours d)) - 11 * getMinutes d : ℤ) : ℚ)) / 2 by
    push_cast
    ring]
  rw [abs_div, ← Int.cast_abs, Int.abs_eq_natAbs, Int.cast_natCast]
  norm_num

theorem angle_formula_spec :
    (∀ d : JSDate,
      ugol d = specRawAngle (hoursRemap (hoursShift (getHours d))) (getMinutes d) ∧
      angleBetweenClockHands d =
        Real.pi * (((if specRawAngle (hoursRemap (hoursShift (getHours d))) (getMinutes d) > 180
          then specRawAngle (hoursRemap (hoursShift (getHours d))) (getMinutes d) / 3
          else specRawAngle (hoursRemap (hoursShift (getHours d))) (getMinutes d)) : ℚ) : ℝ)
          / 180) ∧
      ugol ⟨2016, 0, 1, 1, 0, 0, 0⟩ = 300 ∧ ugolAdjusted ⟨2016, 0, 1, 1, 0, 0, 0⟩ = 100 := by
  have hraw : ∀ d : JSDate,
      ugol d = specRawAngle (hoursRemap (hoursShift (getHours d))) (getMinutes d) := by
    intro d
    unfold ugol specRawAngle
    rfl
  have h300 : ugol ⟨2016, 0, 1, 1, 0, 0, 0⟩ = 300 := by
    rw [ugol_int]
    norm_num [show hoursRemap (hoursShift (getHours ⟨2016, 0, 1, 1, 0, 0, 0⟩)) = 10 by decide,
      show getMinutes ⟨2016, 0, 1, 1, 0, 0, 0⟩ = 0 from rfl]
  refine ⟨fun d => ⟨hraw d, ?_⟩, h300, ?_⟩
  · unfold angleBetweenClockHands ugolAdjusted
    rw [hraw d]
  · unfold ugolAdjusted
    rw [h300]
    norm_num

/-- C3: in the UTC+3 environment the specification's offset convention
describes, `angleBetweenClockHands` returns exactly 0, π/2, π and π/2 on
the four documented UTC-constructed inputs. -/
theorem angle_documented_examples :
    angleBetweenClockHands (utcExample 2016 2 5 0) = 0 ∧
      angleBetweenClockHands (utcExample 2016 3 5 3) = Real.pi / 2 ∧
      angleBetweenClockHands (utcExample 2016 3 5 18) = Real.pi ∧
      angleBetweenClockHands (utcExample 2016 3 5 21) = Real.pi / 2 := by
  have u1 : ugol (utcExample 2016 2 5 0) = 0 := by
    rw [ugol_int]
    norm_num [show hoursRemap (hoursShift (getHours (utcExample 2016 2 5 0))) = 0 by decide,
      show getMinutes (utcExample 2016 2 5 0) = 0 from rfl]
  have u2 : ugol (utcExample 2016 3 5 3) = 90 := by
    rw [ugol_int]
    norm_num [show hoursRemap (hoursShift (getHours (utcExample 2016 3 5 3))) = 3 by decide,
      show getMinutes (utcExample 2016 3 5 3) = 0 from rfl]
  have u3 : ugol (utcExample 2016 3 5 18) = 180 := by
    rw [ugol_int]
    norm_num [show hoursRemap (hoursShift (getHours (utcExample 2016 3 5 18))) = 6 by decide,
      show getMinutes (utcExample 2016 3 5 18) = 0 from rfl]
  have u4 : ugol (utcExample 2016 3 5 21) = 270 := by
    rw [ugol_int]
    norm_num [show hoursRemap (hoursShift (getHours (utcExample 2016 3 5 21))) = 9 by decide,
      show getMinutes (utcExample 2016 3 5 21) = 0 from rfl]
  have h1 : ugolAdjusted (utcExample 2016 2 5 0) = 0 := by
    unfold ugolAdjusted
    rw [u1]
    norm_num
  have h2 : ugolAdjusted (utcExample 2016 3 5 3) = 90 := by
    unfold ugolAdjusted
    rw [u2]
    norm_num
  have h3 : ugolAdjusted (utcExample 2016 3 5 18) = 180 := by
    unfold ugolAdjusted
    rw [u3]
    norm_num
  have h4 : ugolAdjusted (utcExample 2016 3 5 21) = 90 := by
    unfold ugolAdjusted
    rw [u4]
    norm_num
  unfold angleBetweenClockHands
  rw [h1, h2, h3, h4]
  refine ⟨?_, ?_, ?_, ?_⟩ <;> push_cast <;> ring

/-- C10: for every input date (hour component in 0–23, minute component
in 0–59 as the accessors guarantee), the returned angle lies in `[0, π]`:
the raw degree angle is at most 360, the division-by-3 branch caps any
value above 180 at 120, so the degree value entering the radian
conversion lies in `[0, 180]`. -/
theorem angleBetweenClockHands_range (d : JSDate)
    (h0 : 0 ≤ getHours d) (h24 : getHours d < 24)
    (m0 : 0 ≤ getMinutes d) (m60 : getMinutes d < 60) :
    0 ≤ angleBetweenClockHands d ∧ angleBetweenClockHands d ≤ Real.pi := by
  have hr : 0 ≤ hoursRemap (hoursShift (getHours d)) ∧
      hoursRemap (hoursShift (getHours d)) ≤ 12 := by
    rw [hoursRemap_eq]
    unfold hoursShift
    split_ifs <;> omega
  have hna : (60 * hoursRemap (hoursShift (getHours d)) - 11 * getMinutes d).natAbs ≤ 720 := by
    omega
  have hu0 : 0 ≤ ugol d := by
    rw [ugol_int]
    positivity
  have hu : ugol d ≤ 360 := by
    rw [ugol_int]
    have h2 : (((60 * hoursRemap (hoursShift (getHours d)) -
        11 * getMinutes d).natAbs : ℚ)) ≤ 720 := by
      exact_mod_cast hna
    linarith
  have ha0 : 0 ≤ ugolAdjusted d := by
    unfold ugolAdjusted
    split_ifs
    · exact div_nonneg hu0 (by norm_num)
    · exact hu0
  have ha : ugolAdjusted d ≤ 180 := by
    unfold ugolAdjusted
    split_ifs with hgt
    · linarith
    · linarith
  have hx0 : (0 : ℝ) ≤ ((ugolAdjusted d : ℚ) : ℝ) := by exact_mod_cast ha0
  have hx : ((ugolAdjusted d : ℚ) : ℝ) ≤ 180 := by exact_mod_cast ha
  constructor
  · exact div_nonneg (mul_nonneg Real.pi_pos.le hx0) (by norm_num)
  · unfold angleBetweenClockHands
    rw [div_le_iff₀ (by norm_num : (0 : ℝ) < 180)]
    calc Real.pi * ((ugolAdjusted d : ℚ) : ℝ) ≤ Real.pi * 180 :=
        mul_le_mul_of_nonneg_left hx Real.pi_pos.le
      _ = Real.pi * 180 := rfl

/-- C10 witness: the range property applied at a concrete 3:00 date. -/
theorem angleBetweenClockHands_range_witness :
    0 ≤ getHours ⟨2016, 0, 1, 3, 0, 0, 0⟩ ∧ getHours ⟨2016, 0, 1, 3, 0, 0, 0⟩ < 24 ∧
      0 ≤ getMinutes ⟨2016, 0, 1, 3, 0, 0, 0⟩ ∧ getMinutes ⟨2016, 0, 1, 3, 0, 0, 0⟩ < 60 ∧
      (0 ≤ angleBetweenClockHands ⟨2016, 0, 1, 3, 0, 0, 0⟩ ∧
        angleBetweenClockHands ⟨2016, 0, 1, 3, 0, 0, 0⟩ ≤ Real.pi) :=
  ⟨by decide, by decide, by decide, by decide,
    angleBetweenClockHands_range ⟨2016, 0, 1, 3, 0, 0, 0⟩
      (by decide) (by decide) (by decide) (by decide)⟩

/-! ## Parser lemmas -/

theorem digitChar_isDigit {k : Nat} (h : k < 10) : (Nat.digitChar k).isDigit = true := by
  interval_cases k <;> decide

theorem digitChar_mod_isDigit (k : Nat) : (Nat.digitChar (k % 10)).isDigit = true :=
  digitChar_isDigit (Nat.mod_lt k (by norm_num))

theorem digitVal_digitChar {k : Nat} (h : k < 10) : digitVal (Nat.digitChar k) = k := by
  interval_cases k <;> decide

theorem digitVal_digitChar_mod (k : Nat) : digitVal (Nat.digitChar (k % 10)) = k % 10 :=
  digitVal_digitChar (Nat.mod_lt k (by norm_num))

theorem padNum_two (n : Nat) :
    padNum 2 n = [Nat.digitChar (n / 10 % 10), Nat.digitChar (n % 10)] := rfl

theorem padNum_four (n : Nat) :
    padNum 4 n = [Nat.digitChar (n / 10 / 10 / 10 % 10), Nat.digitChar (n / 10 / 10 % 10),
      Nat.digitChar (n / 10 % 10), Nat.digitChar (n % 10)] := rfl

theorem read2_pad (n : Nat) (h : n < 100) :
    read2 (Nat.digitChar (n / 10 % 10)) (Nat.digitChar (n % 10)) = n := by
  unfold read2
  rw [digitVal_digitChar_mod, digitVal_digitChar_mod]
  omega

theorem read4_pad (n : Nat) (h : n < 10000) :
    read4 (Nat.digitChar (n / 10 / 10 / 10 % 10)) (Nat.digitChar (n / 10 / 10 % 10))
      (Nat.digitChar (n / 10 % 10)) (Nat.digitChar (n % 10)) = n := by
  unfold read4
  rw [digitVal_digitChar_mod, digitVal_digitChar_mod, digitVal_digitChar_mod,
    digitVal_digitChar_mod]
  omega

theorem parseZoneIso_render (z : ZoneSpec) (hz : ZoneInRange z) :
    parseZoneIso (renderZoneIso z) = some (zoneOffsetMs z) := by
  cases z with
  | zulu => rfl
  | offset neg h m =>
    obtain ⟨hh, hm⟩ := hz
    cases neg with
    | false =>
      simp only [renderZoneIso, if_neg, Bool.false_eq_true, not_false_iff, ite_false,
        padNum_two, List.cons_append, List.nil_append, parseZoneIso]
      rw [read2_pad h (by omega), read2_pad m (by omega)]
      rw [if_pos ⟨digitChar_mod_isDigit _, digitChar_mod_isDigit _, digitChar_mod_isDigit _,
        digitChar_mod_isDigit _, hh, hm⟩]
      simp only [zoneOffsetMs, Bool.false_eq_true, ite_false]
      norm_num
    | true =>
      simp only [renderZoneIso, ite_true, padNum_two, List.cons_append, List.nil_append,
        parseZoneIso]
      rw [read2_pad h (by omega), read2_pad m (by omega)]
      rw [if_pos ⟨digitChar_mod_isDigit _, digitChar_mod_isDigit _, digitChar_mod_isDigit _,
        digitChar_mod_isDigit _, hh, hm⟩]
      simp only [zoneOffsetMs, ite_true]
      norm_num

theorem parseIso_render (c : DateComponents) (z : ZoneSpec)
    (hc : ComponentsInRange c) (hz : ZoneInRange z) :
    parseIsoChars (renderIso c z) = some (denotedEpochMs c z) := by
  obtain ⟨h1, h2, h3, h4, h5, h6, h7, h8, h9⟩ := hc
  simp only [renderIso, padNum_four, padNum_two, List.cons_append, List.nil_append,
    parseIsoChars]
  rw [read4_pad c.year (by omega), read2_pad c.month (by omega), read2_pad c.day (by omega),
    read2_pad c.hourv (by omega), read2_pad c.minutev (by omega),
    read2_pad c.secondv (by omega)]
  rw [if_pos ⟨digitChar_mod_isDigit _, digitChar_mod_isDigit _, digitChar_mod_isDigit _,
    digitChar_mod_isDigit _, digitChar_mod_isDigit _, digitChar_mod_isDigit _,
    digitChar_mod_isDigit _, digitChar_mod_isDigit _, digitChar_mod_isDigit _,
    digitChar_mod_isDigit _, digitChar_mod_isDigit _, digitChar_mod_isDigit _,
    digitChar_mod_isDigit _, digitChar_mod_isDigit _⟩]
  rw [if_pos (show ComponentsInRange ⟨c.year, c.month, c.day, c.hourv, c.minutev, c.secondv⟩
    from ⟨h1, h2, h3, h4, h5, h6, h7, h8, h9⟩)]
  rw [parseZoneIso_render z hz]
  rfl

theorem parseIso_rfcShape (a b c : Char) (rest : List Char) :
    parseIsoChars (a :: b :: c :: ',' :: ' ' :: rest) = none := rfl

theorem dayChars_spec {w : Nat} (h : w < 7) :
    ∃ a b c, dayChars w = [a, b, c] ∧ DayNameOk a b c := by
  interval_cases w <;> exact ⟨_, _, _, rfl, by decide⟩

theorem monthChars_spec {mo : Nat} (h1 : 1 ≤ mo) (h2 : mo ≤ 12) :
    ∃ a b c, monthChars mo = [a, b, c] ∧ monthFromName a b c = some mo := by
  interval_cases mo <;> exact ⟨_, _, _, rfl, by decide⟩

theorem parseZoneRfc_render (z : ZoneSpec) (hz : ZoneInRange z) :
    parseZoneRfc (renderZoneRfc z) = some (zoneOffsetMs z) := by
  cases z with
  | zulu => rfl
  | offset neg h m =>
    obtain ⟨hh, hm⟩ := hz
    cases neg with
    | false =>
      simp only [renderZoneRfc, Bool.false_eq_true, ite_false, padNum_two,
        List.cons_append, List.nil_append, parseZoneRfc]
      rw [read2_pad h (by omega), read2_pad m (by omega)]
      rw [if_pos ⟨digitChar_mod_isDigit _, digitChar_mod_isDigit _, digitChar_mod_isDigit _,
        digitChar_mod_isDigit _, hh, hm⟩]
      simp only [zoneOffsetMs, Bool.false_eq_true, ite_false]
      norm_num
    | true =>
      simp only [renderZoneRfc, ite_true, padNum_two, List.cons_append, List.nil_append,
        parseZoneRfc]
      rw [read2_pad h (by omega), read2_pad m (by omega)]
      rw [if_pos ⟨digitChar_mod_isDigit _, digitChar_mod_isDigit _, digitChar_mod_isDigit _,
        digitChar_mod_isDigit _, hh, hm⟩]
      simp only [zoneOffsetMs, ite_true]
      norm_num

theorem parseRfc_render {w : Nat} (c : DateComponents) (z : ZoneSpec) (hw : w < 7)
    (hc : ComponentsInRange c) (hz : ZoneInRange z) :
    parseRfcChars (renderRfc w c z) = some (denotedEpochMs c z) := by
  obtain ⟨h1, h2, h3, h4, h5, h6, h7, h8, h9⟩ := hc
  obtain ⟨a, b, c3, hd, hdn⟩ := dayChars_spec hw
  obtain ⟨a2, b2, c2, hmn, hmv⟩ := monthChars_spec h3 h4
  simp only [renderRfc, hd, hmn, padNum_four, padNum_two, List.cons_append, List.nil_append,
    parseRfcChars]
  rw [read4_pad c.year (by omega), read2_pad c.day (by omega),
    read2_pad c.hourv (by omega), read2_pad c.minutev (by omega),
    read2_pad c.secondv (by omega)]
  rw [if_pos ⟨hdn, digitChar_mod_isDigit _, digitChar_mod_isDigit _,
    digitChar_mod_isDigit _, digitChar_mod_isDigit _, digitChar_mod_isDigit _,
    digitChar_mod_isDigit _, digitChar_mod_isDigit _, digitChar_mod_isDigit _,
    digitChar_mod_isDigit _, digitChar_mod_isDigit _, digitChar_mod_isDigit _,
    digitChar_mod_isDigit _⟩]
  rw [hmv]
  show (if ComponentsInRange ⟨c.year, c.month, c.day, c.hourv, c.minutev, c.secondv⟩ then
      match parseZoneRfc (renderZoneRfc z) with
      | some off =>
        some (utcEpochMs ⟨c.year, c.month, c.day, c.hourv, c.minutev, c.secondv⟩ - off)
      | none => none
    else none) = some (denotedEpochMs c z)
  rw [if_pos (show ComponentsInRange ⟨c.year, c.month, c.day, c.hourv, c.minutev, c.secondv⟩
    from ⟨h1, h2, h3, h4, h5, h6, h7, h8, h9⟩)]
  rw [parseZoneRfc_render z hz]
  rfl

theorem parseIso_renderRfc_none (w : Nat) (c : DateComponents) (z : ZoneSpec) (hw : w < 7) :
    parseIsoChars (renderRfc w c z) = none := by
  obtain ⟨a, b, c3, hd, _⟩ := dayChars_spec hw
  rw [renderRfc, hd]
  simp only [List.cons_append, List.nil_append]
  exact parseIso_rfcShape a b c3 _

/-- C7: both parsers are total — every string yields either the NaN
sentinel (modelled as `none`) or an epoch-millisecond number, never a
raised error — and concrete ill-formed strings (wrong shape, or
out-of-range fields) yield the sentinel. -/
theorem dateParse_total_nan_sentinel :
    (∀ s : String, parseDataFromRfc2822 s = none ∨ ∃ n : Int, parseDataFromRfc2822 s = some n) ∧
      (∀ s : String, parseDataFromIso8601 s = none ∨ ∃ n : Int, parseDataFromIso8601 s = some n) ∧
      parseDataFromRfc2822 "hello" = none ∧
      parseDataFromIso8601 "not a date" = none ∧
      parseDataFromIso8601 "2016-99-19T16:07:37Z" = none := by
  refine ⟨?_, ?_, by decide, by decide, by decide⟩
  · intro s
    rcases hq : parseDataFromRfc2822 s with _ | v
    · exact Or.inl rfl
    · exact Or.inr ⟨v, rfl⟩
  · intro s
    rcases hq : parseDataFromIso8601 s with _ | v
    · exact Or.inl rfl
    · exact Or.inr ⟨v, rfl⟩

/-- C8: every valid ISO-8601 extended string (any in-range components
with any in-range zone designator, rendered canonically) parses to the
epoch-millisecond instant it denotes, honoring the explicit offset or
`Z`; likewise every valid RFC-2822 string parses to its denoted instant;
and the three documented strings parse to their known epoch values. -/
theorem dateParse_valid_strings :
    (∀ (c : DateComponents) (z : ZoneSpec), ComponentsInRange c → ZoneInRange z →
      parseDataFromIso8601 (String.mk (renderIso c z)) = some (denotedEpochMs c z)) ∧
      (∀ (w : Nat) (c : DateComponents) (z : ZoneSpec), w < 7 → ComponentsInRange c →
        ZoneInRange z →
        parseDataFromRfc2822 (String.mk (renderRfc w c z)) = some (denotedEpochMs c z)) ∧
      parseDataFromIso8601 "2016-01-19T16:07:37+00:00" = some 1453219657000 ∧
      parseDataFromIso8601 "2016-01-19T08:07:37Z" = some 1453190857000 ∧
      parseDataFromRfc2822 "Tue, 26 Jan 2016 13:48:02 GMT" = some 1453816082000 := by
  refine ⟨?_, ?_, by decide, by decide, by decide⟩
  · intro c z hc hz
    show (match parseIsoChars (renderIso c z) with
      | some v => some v
      | none => parseRfcChars (renderIso c z)) = some (denotedEpochMs c z)
    rw [parseIso_render c z hc hz]
  · intro w c z hw hc hz
    show (match parseIsoChars (renderRfc w c z) with
      | some v => some v
      | none => parseRfcChars (renderRfc w c z)) = some (denotedEpochMs c z)
    rw [parseIso_renderRfc_none w c z hw]
    show parseRfcChars (renderRfc w c z) = some (denotedEpochMs c z)
    exact parseRfc_render c z hw hc hz

/-- C8 witness: the ISO round trip applied at the components of
`"2016-01-19T16:07:37+00:00"`. -/
theorem dateParse_valid_strings_witness :
    ComponentsInRange ⟨2016, 1, 19, 16, 7, 37⟩ ∧
      ZoneInRange (ZoneSpec.offset false 0 0) ∧
      parseDataFromIso8601
          (String.mk (renderIso ⟨2016, 1, 19, 16, 7, 37⟩ (ZoneSpec.offset false 0 0))) =
        some (denotedEpochMs ⟨2016, 1, 19, 16, 7, 37⟩ (ZoneSpec.offset false 0 0)) :=
  ⟨by decide, by decide,
    dateParse_valid_strings.1 ⟨2016, 1, 19, 16, 7, 37⟩ (ZoneSpec.offset false 0 0)
      (by decide) (by decide)⟩

end CoreJs101
